import Mathlib

/-!
Verification of the parent/worker coordination sample
(`run.py`, `src/dto.py`, `src/child.py`, `src/parent.py`).

The Python code is shallowly embedded: the pydantic DTOs become
structures with explicit validating constructors returning
`Except String _` (a raised `ValueError` / pydantic `ValidationError`
is the `error` case); the worker loop body becomes a pure function from
a request to the response it posts; the queue-level shutdown handshake
becomes a small transition system on token / worker counts; the
nondeterministic arrival order on the response channel becomes an
explicit arrival list constrained to be a permutation of the canonical
per-request responses.
-/

/-- DTO for the request of the task (`src/dto.py`, class TaskRequest). -/
structure TaskRequest where
  request_index : Int
  request_value : Int
deriving DecidableEq

/-- DTO for the response of the task (`src/dto.py`, class TaskResponse). -/
structure TaskResponse where
  request_index : Int
  response_value : Int
  is_success : Bool
deriving DecidableEq

/-- The shared validate function (`src/dto.py`, check_value): raises on a
value below 1 or above 100, returns the value unchanged otherwise. -/
def check_value (value : Int) : Except String Int :=
  if value < 1 then Except.error ("non-positive value: " ++ toString value)
  else if value > 100 then Except.error ("value exceeds upper bound: " ++ toString value)
  else Except.ok value

/-- Validating construction of a TaskRequest: pydantic runs check_value on
request_index and request_value, in field order; the first failure raises. -/
def mkTaskRequest (request_index request_value : Int) : Except String TaskRequest :=
  match check_value request_index with
  | Except.error e => Except.error e
  | Except.ok i =>
    match check_value request_value with
    | Except.error e => Except.error e
    | Except.ok q => Except.ok { request_index := i, request_value := q }

/-- Validating construction of a TaskResponse: check_value runs on
request_index and response_value; is_success is not validated. -/
def mkTaskResponse (request_index response_value : Int) (is_success : Bool) :
    Except String TaskResponse :=
  match check_value request_index with
  | Except.error e => Except.error e
  | Except.ok r =>
    match check_value response_value with
    | Except.error e => Except.error e
    | Except.ok s => Except.ok { request_index := r, response_value := s, is_success := is_success }

/-- The actual task handling (`src/child.py`, Child.run): square the request
value, construct a TaskResponse with is_success = true; a validation failure
in the construction is re-raised to the caller (the sleep and the log lines
are side effects outside the embedding). -/
def Child.run (req : TaskRequest) : Except String TaskResponse :=
  mkTaskResponse req.request_index (req.request_value ^ 2) true

/-- One iteration body of the worker loop for a dequeued TaskRequest
(`src/parent.py`, child_worker, lines 150-164): run the Child; on ValueError
build the sentinel failure response (response_value 1, is_success false) for
the same request_index; the returned value is the response posted to the
response channel (`none` would mean the construction of the sentinel itself
raised and the worker crashed without posting). -/
def child_worker_step (req : TaskRequest) : Option TaskResponse :=
  match Child.run req with
  | Except.ok res => some res
  | Except.error _ => (mkTaskResponse req.request_index 1 false).toOption

lemma check_value_ok_iff (v : Int) : (check_value v = Except.ok v) ↔ (1 ≤ v ∧ v ≤ 100) := by
  unfold check_value
  constructor
  · intro h
    split at h
    · exact absurd h (by simp)
    · split at h
      · exact absurd h (by simp)
      · omega
  · intro h
    rw [if_neg (by omega), if_neg (by omega)]

lemma check_value_ok (v : Int) (h1 : 1 ≤ v) (h2 : v ≤ 100) : check_value v = Except.ok v :=
  (check_value_ok_iff v).mpr ⟨h1, h2⟩

lemma check_value_ok_elim {v w : Int} (h : check_value v = Except.ok w) :
    w = v ∧ 1 ≤ v ∧ v ≤ 100 := by
  unfold check_value at h
  split at h
  · exact absurd h (by simp)
  · split at h
    · exact absurd h (by simp)
    · exact ⟨by injection h with h; omega, by omega, by omega⟩

lemma check_value_lt (v : Int) (h : v < 1) :
    check_value v = Except.error ("non-positive value: " ++ toString v) := by
  unfold check_value
  rw [if_pos h]

lemma check_value_gt (v : Int) (h : 100 < v) :
    check_value v = Except.error ("value exceeds upper bound: " ++ toString v) := by
  unfold check_value
  rw [if_neg (by omega), if_pos (by omega)]

lemma mkTaskRequest_ok (i q : Int) (h1 : 1 ≤ i) (h2 : i ≤ 100) (h3 : 1 ≤ q) (h4 : q ≤ 100) :
    mkTaskRequest i q = Except.ok { request_index := i, request_value := q } := by
  unfold mkTaskRequest
  rw [check_value_ok i h1 h2, check_value_ok q h3 h4]

lemma mkTaskResponse_ok (r s : Int) (b : Bool) (h1 : 1 ≤ r) (h2 : r ≤ 100)
    (h3 : 1 ≤ s) (h4 : s ≤ 100) :
    mkTaskResponse r s b =
      Except.ok { request_index := r, response_value := s, is_success := b } := by
  unfold mkTaskResponse
  rw [check_value_ok r h1 h2, check_value_ok s h3 h4]

lemma sentinel_response_ok (r : Int) (h1 : 1 ≤ r) (h2 : r ≤ 100) :
    mkTaskResponse r 1 false =
      Except.ok { request_index := r, response_value := 1, is_success := false } :=
  mkTaskResponse_ok r 1 false h1 h2 (by omega) (by omega)

lemma mkTaskResponse_ok_elim {r s : Int} {b : Bool} {res : TaskResponse}
    (h : mkTaskResponse r s b = Except.ok res) :
    res = { request_index := r, response_value := s, is_success := b } := by
  unfold mkTaskResponse at h
  cases hr : check_value r with
  | error e => rw [hr] at h; exact absurd h (by simp)
  | ok rr =>
    rw [hr] at h
    cases hs : check_value s with
    | error e => rw [hs] at h; exact absurd h (by simp)
    | ok ss =>
      rw [hs] at h
      injection h with h
      rw [← h, (check_value_ok_elim hr).1, (check_value_ok_elim hs).1]

/-- Claim C4: for every accepted TaskRequest whose request_value v lies in
[1,100], a successful run of the Child task returns a TaskResponse with
is_success = true and response_value = v squared. -/
theorem successful_response_is_square (req : TaskRequest) (res : TaskResponse)
    (h1 : 1 ≤ req.request_value) (h2 : req.request_value ≤ 100)
    (hok : Child.run req = Except.ok res) :
    res.is_success = true ∧ res.response_value = req.request_value ^ 2 := by
  unfold Child.run at hok
  rw [mkTaskResponse_ok_elim hok]
  exact ⟨rfl, rfl⟩

/-- Witness for successful_response_is_square at the concrete request
with index 1 and value 3, whose response is 9. -/
theorem successful_response_is_square_witness :
    (1 : Int) ≤ (3 : Int) ∧
    ({ request_index := 1, response_value := 9, is_success := true } : TaskResponse).is_success
        = true ∧
    ({ request_index := 1, response_value := 9, is_success := true } : TaskResponse).response_value
        = ({ request_index := 1, request_value := 3 } : TaskRequest).request_value ^ 2 :=
  ⟨by decide,
   successful_response_is_square { request_index := 1, request_value := 3 }
     { request_index := 1, response_value := 9, is_success := true }
     (by decide) (by decide) rfl⟩

/-- Claim C6: constructing a TaskRequest or TaskResponse succeeds exactly when
every validated integer field (request_index, request_value, response_value)
lies in [1,100]; a failure carries an error message naming the offending
value; a success returns the fields unchanged (construction is pure, so it
has no side effects). -/
theorem dto_validation_contract (i q r s : Int) (b : Bool) :
    ((∃ t, mkTaskRequest i q = Except.ok t) ↔ (1 ≤ i ∧ i ≤ 100 ∧ 1 ≤ q ∧ q ≤ 100))
    ∧ ((∃ u, mkTaskResponse r s b = Except.ok u) ↔ (1 ≤ r ∧ r ≤ 100 ∧ 1 ≤ s ∧ s ≤ 100))
    ∧ (i < 1 → mkTaskRequest i q = Except.error ("non-positive value: " ++ toString i))
    ∧ (100 < i → mkTaskRequest i q = Except.error ("value exceeds upper bound: " ++ toString i))
    ∧ (1 ≤ i → i ≤ 100 → q < 1 →
        mkTaskRequest i q = Except.error ("non-positive value: " ++ toString q))
    ∧ (1 ≤ i → i ≤ 100 → 100 < q →
        mkTaskRequest i q = Except.error ("value exceeds upper bound: " ++ toString q))
    ∧ (1 ≤ r → r ≤ 100 → s < 1 →
        mkTaskResponse r s b = Except.error ("non-positive value: " ++ toString s))
    ∧ (1 ≤ i → i ≤ 100 → 1 ≤ q → q ≤ 100 →
        mkTaskRequest i q = Except.ok { request_index := i, request_value := q })
    ∧ (1 ≤ r → r ≤ 100 → 1 ≤ s → s ≤ 100 →
        mkTaskResponse r s b =
          Except.ok { request_index := r, response_value := s, is_success := b }) := by
  refine ⟨?_, ?_, ?_, ?_, ?_, ?_, ?_, ?_, ?_⟩
  · constructor
    · rintro ⟨t, ht⟩
      unfold mkTaskRequest at ht
      cases hi : check_value i with
      | error e => rw [hi] at ht; exact absurd ht (by simp)
      | ok ii =>
        rw [hi] at ht
        cases hq : check_value q with
        | error e => rw [hq] at ht; exact absurd ht (by simp)
        | ok qq =>
          obtain ⟨-, hi1, hi2⟩ := check_value_ok_elim hi
          obtain ⟨-, hq1, hq2⟩ := check_value_ok_elim hq
          exact ⟨hi1, hi2, hq1, hq2⟩
    · rintro ⟨h1, h2, h3, h4⟩
      exact ⟨_, mkTaskRequest_ok i q h1 h2 h3 h4⟩
  · constructor
    · rintro ⟨u, hu⟩
      unfold mkTaskResponse at hu
      cases hr : check_value r with
      | error e => rw [hr] at hu; exact absurd hu (by simp)
      | ok rr =>
        rw [hr] at hu
        cases hs : check_value s with
        | error e => rw [hs] at hu; exact absurd hu (by simp)
        | ok ss =>
          obtain ⟨-, hr1, hr2⟩ := check_value_ok_elim hr
          obtain ⟨-, hs1, hs2⟩ := check_value_ok_elim hs
          exact ⟨hr1, hr2, hs1, hs2⟩
    · rintro ⟨h1, h2, h3, h4⟩
      exact ⟨_, mkTaskResponse_ok r s b h1 h2 h3 h4⟩
  · intro h
    unfold mkTaskRequest
    rw [check_value_lt i h]
  · intro h
    unfold mkTaskRequest
    rw [check_value_gt i h]
  · intro h1 h2 h3
    unfold mkTaskRequest
    rw [check_value_ok i h1 h2, check_value_lt q h3]
  · intro h1 h2 h3
    unfold mkTaskRequest
    rw [check_value_ok i h1 h2, check_value_gt q h3]
  · intro h1 h2 h3
    unfold mkTaskResponse
    rw [check_value_ok r h1 h2, check_value_lt s h3]
  · exact fun h1 h2 h3 h4 => mkTaskRequest_ok i q h1 h2 h3 h4
  · exact fun h1 h2 h3 h4 => mkTaskResponse_ok r s b h1 h2 h3 h4

/-- Witness for dto_validation_contract: construction with index 0 fails
naming the value 0, and construction with in-range fields 3 and 7 succeeds. -/
theorem dto_validation_contract_witness :
    mkTaskRequest 0 5 = Except.error ("non-positive value: " ++ toString (0 : Int))
    ∧ mkTaskRequest 3 7 = Except.ok { request_index := 3, request_value := 7 } :=
  ⟨(dto_validation_contract 0 5 1 1 true).2.2.1 (by decide),
   (dto_validation_contract 3 7 1 1 true).2.2.2.2.2.2.2.1 (by decide) (by decide)
     (by decide) (by decide)⟩

/-- Claim C10: the error-recovery branch is total — for every request_index
in [1,100], constructing the sentinel failure response (response_value 1,
is_success false) always succeeds, because 1 is inside the validated range,
so the worker's exception handler can never raise a second validation
error. -/
theorem sentinel_construction_total (r : Int) (h1 : 1 ≤ r) (h2 : r ≤ 100) :
    mkTaskResponse r 1 false =
      Except.ok { request_index := r, response_value := 1, is_success := false } :=
  sentinel_response_ok r h1 h2

/-- Witness for sentinel_construction_total at request_index 42. -/
theorem sentinel_construction_total_witness :
    mkTaskResponse 42 1 false =
      Except.ok { request_index := 42, response_value := 1, is_success := false } :=
  sentinel_construction_total 42 (by decide) (by decide)

/-- Claim C7: for every TaskRequest whose request_index is in [1,100] (every
accepted request), the worker loop body posts exactly one response: if the
Child task raises a validation error, the posted response is the sentinel
with the same request_index, response_value 1 and is_success false; if the
Child succeeds, the posted response is the Child's response. -/
theorem worker_failure_handling (req : TaskRequest)
    (h1 : 1 ≤ req.request_index) (h2 : req.request_index ≤ 100) :
    (∃ res, child_worker_step req = some res)
    ∧ (∀ e, Child.run req = Except.error e →
        child_worker_step req =
          some { request_index := req.request_index, response_value := 1, is_success := false })
    ∧ (∀ res, Child.run req = Except.ok res → child_worker_step req = some res) := by
  refine ⟨?_, ?_, ?_⟩
  · unfold child_worker_step
    cases hrun : Child.run req with
    | ok res => exact ⟨res, rfl⟩
    | error e =>
      rw [sentinel_response_ok req.request_index h1 h2]
      exact ⟨_, rfl⟩
  · intro e he
    unfold child_worker_step
    rw [he, sentinel_response_ok req.request_index h1 h2]
    rfl
  · intro res hres
    unfold child_worker_step
    rw [hres]

/-- Witness for worker_failure_handling at the request with index 5 and
value 11: the Child computes 121, which fails validation, and the worker
posts the sentinel failure response for index 5. -/
theorem worker_failure_handling_witness :
    child_worker_step { request_index := 5, request_value := 11 } =
      some { request_index := 5, response_value := 1, is_success := false } :=
  (worker_failure_handling { request_index := 5, request_value := 11 }
      (by decide) (by decide)).2.1
    ("value exceeds upper bound: " ++ toString (121 : Int)) rfl

/-- Worker-count resolution (`src/parent.py`, Parent._get_nchild, lines
309-330): at least 1, at most cpu_count - 1. -/
def Parent.get_nchild (nchild : Int) (cpu_count : Option Int) : Int :=
  match cpu_count with
  | none => 1
  | some c =>
    if c < 2 then 1
    else if 0 ≤ nchild ∧ nchild < 2 then 1
    else if nchild < 0 ∨ c ≤ nchild then c - 1
    else nchild

/-- The hard-coded batch size (`src/parent.py`, Parent.run, line 344). -/
def Parent.num_task : Nat := 12

/-- The candidate (index, value) pairs the single path tries to submit
(`src/parent.py`, Parent._run_single, lines 376-389): request_index i+1,
request_value i for i below num_task. -/
def run_single_candidates (num_task : Nat) : List (Int × Int) :=
  (List.range num_task).map fun i => ((i : Int) + 1, (i : Int))

/-- The candidate (index, value) pairs the multi path tries to enqueue
(`src/parent.py`, Parent._run_multiple, lines 455-471): request_index i+1,
request_value i for i below num_task. -/
def run_multiple_candidates (num_task : Nat) : List (Int × Int) :=
  (List.range num_task).map fun i => ((i : Int) + 1, (i : Int))

/-- The candidate batch Parent.run submits, as a function of the configured
worker count: run() dispatches on nchild < 2 (`src/parent.py`, lines
344-349) and both paths build their candidates from the same hard-coded
num_task. -/
def Parent.candidates (nchild : Int) : List (Int × Int) :=
  if nchild < 2 then run_single_candidates Parent.num_task
  else run_multiple_candidates Parent.num_task

/-- Validation-and-skip at submission time: candidates whose construction
raises are logged and dropped, the rest become the accepted requests in
submission order (the try/except/continue loops in both paths). -/
def acceptedRequests (cands : List (Int × Int)) : List TaskRequest :=
  cands.filterMap fun p => (mkTaskRequest p.1 p.2).toOption

/-- The single-worker synchronous path (`src/parent.py`, Parent._run_single,
lines 356-408): build and validate the requests, run the Child on each in
order, skip a request whose handling raises ValueError, collect
response_value of the rest. -/
def Parent.run_single (num_task : Nat) : List Int :=
  (acceptedRequests (run_single_candidates num_task)).filterMap fun req =>
    match Child.run req with
    | Except.ok res => some res.response_value
    | Except.error _ => none

/-- The drain loop of the multi path (`src/parent.py`, lines 508-516): the
coordinator receives task_remains responses in arrival order and keeps the
successful ones. -/
def drainResponses (arrivals : List TaskResponse) : List TaskResponse :=
  arrivals.filter fun r => r.is_success

/-- The comparison used by the final sort of the multi path:
sorted(key=lambda x: x.request_index) is a stable merge sort under this
key comparison. -/
def respLe (a b : TaskResponse) : Bool :=
  decide (a.request_index ≤ b.request_index)

/-- The final sort of the multi path (`src/parent.py`, line 534): Python's
sorted is a stable merge sort on the key. -/
def sortResponses (responses : List TaskResponse) : List TaskResponse :=
  responses.mergeSort respLe

/-- The result assembly of the multi path (`src/parent.py`, lines 508-536)
as a function of the arrival order on the response channel: drain keeping
successes, sort by request_index, emit response_value (the comprehension's
"response_value is not None" guard is vacuous for the int-typed field). -/
def Parent.run_multiple (arrivals : List TaskResponse) : List Int :=
  (sortResponses (drainResponses arrivals)).map fun res => res.response_value

/-- The canonical multiset of responses the workers post for a batch: one
response per accepted request, produced by the worker loop body. Any actual
arrival order on the response channel is a permutation of this list. -/
def canonicalResponses (num_task : Nat) : List TaskResponse :=
  (acceptedRequests (run_multiple_candidates num_task)).filterMap child_worker_step

/-- Claim C8: the resolved worker count is 1 when parallelism is unknown or
below 2, 1 when the requested count is 0 or 1, cpu_count - 1 when the
request is negative or at least cpu_count, the requested count itself
otherwise; whenever parallelism is known and at least 2 the result stays
strictly below the core count. -/
theorem worker_count_policy (n : Int) (c : Option Int) :
    (c = none → Parent.get_nchild n c = 1)
    ∧ (∀ cc, c = some cc → cc < 2 → Parent.get_nchild n c = 1)
    ∧ (n = 0 ∨ n = 1 → Parent.get_nchild n c = 1)
    ∧ (∀ cc, c = some cc → 2 ≤ cc → (n < 0 ∨ cc ≤ n) → Parent.get_nchild n c = cc - 1)
    ∧ (∀ cc, c = some cc → 2 ≤ cc → 2 ≤ n → n < cc → Parent.get_nchild n c = n)
    ∧ (∀ cc, c = some cc → 2 ≤ cc → Parent.get_nchild n c < cc) := by
  refine ⟨?_, ?_, ?_, ?_, ?_, ?_⟩
  · rintro rfl
    rfl
  · rintro cc rfl hcc
    simp only [Parent.get_nchild]
    split_ifs <;> omega
  · intro hn
    cases c with
    | none => rfl
    | some cc =>
      simp only [Parent.get_nchild]
      split_ifs <;> omega
  · rintro cc rfl hcc hn
    simp only [Parent.get_nchild]
    split_ifs <;> omega
  · rintro cc rfl hcc hn hlt
    simp only [Parent.get_nchild]
    split_ifs <;> omega
  · rintro cc rfl hcc
    simp only [Parent.get_nchild]
    split_ifs <;> omega

/-- Witness for worker_count_policy: requesting 3 workers with 4 detected
cores resolves to 3, which is below the core count. -/
theorem worker_count_policy_witness :
    Parent.get_nchild 3 (some 4) = 3 ∧ Parent.get_nchild 3 (some 4) < 4 :=
  ⟨(worker_count_policy 3 (some 4)).2.2.2.2.1 4 rfl (by decide) (by decide) (by decide),
   (worker_count_policy 3 (some 4)).2.2.2.2.2 4 rfl (by decide)⟩

/-- Claim C9: every call to Parent.run submits the same hard-coded batch of
12 candidate tasks, (request_index, request_value) = (i+1, i) for i = 0..11,
whatever the configured worker count; the worker count only selects the
execution path. -/
theorem fixed_batch_submission :
    (∀ nchild : Int, Parent.candidates nchild = run_single_candidates Parent.num_task)
    ∧ run_single_candidates Parent.num_task = run_multiple_candidates Parent.num_task
    ∧ run_single_candidates Parent.num_task =
        [(1, 0), (2, 1), (3, 2), (4, 3), (5, 4), (6, 5),
         (7, 6), (8, 7), (9, 8), (10, 9), (11, 10), (12, 11)] := by
  refine ⟨fun nchild => ?_, rfl, by decide⟩
  unfold Parent.candidates
  split
  · rfl
  · rfl

/-- The claim that the batch of 12 inputs 0..11 yields the squares of 1..12
is false: the output of the single path (taken by run() for worker count 1)
is not that list, because input 11 squares to 121, which is rejected by the
response validation. -/
theorem batch_output_counterexample :
    Parent.run_single Parent.num_task ≠
      [1, 4, 9, 16, 25, 36, 49, 64, 81, 100, 121, 144] := by
  decide

/-- Claim C5 (amended): for the batch of 12 inputs 0..11 both paths output
the squares of 1..10; the zero-valued candidate is rejected at submission
(the accepted request values are 1..11) and input 11 yields 121, which
fails response validation and is excluded from the output. -/
theorem batch_output_amended :
    Parent.run_single Parent.num_task = [1, 4, 9, 16, 25, 36, 49, 64, 81, 100]
    ∧ (acceptedRequests (run_single_candidates Parent.num_task)).map TaskRequest.request_value
        = [1, 2, 3, 4, 5, 6, 7, 8, 9, 10, 11]
    ∧ Parent.run_multiple (canonicalResponses Parent.num_task)
        = [1, 4, 9, 16, 25, 36, 49, 64, 81, 100] := by
  refine ⟨by decide, by decide, ?_⟩
  have h1 : drainResponses (canonicalResponses Parent.num_task) =
      [⟨2, 1, true⟩, ⟨3, 4, true⟩, ⟨4, 9, true⟩, ⟨5, 16, true⟩, ⟨6, 25, true⟩,
       ⟨7, 36, true⟩, ⟨8, 49, true⟩, ⟨9, 64, true⟩, ⟨10, 81, true⟩, ⟨11, 100, true⟩] := by
    decide
  unfold Parent.run_multiple sortResponses
  rw [h1, List.mergeSort_of_sorted (by decide)]
  decide

/-- State of the shutdown handshake after the drain phase: the request
channel holds only shutdown signals (None entries), counted by tokens;
running counts workers still in their dequeue loop, exited the workers
whose loop has finished (`src/parent.py`, lines 517-528 on the coordinator
side and lines 143-149 on the worker side). -/
structure HandshakeState where
  tokens : Nat
  running : Nat
  exited : Nat
deriving DecidableEq

/-- One worker observes the shutdown signal (`src/parent.py`, child_worker,
lines 143-149): it dequeues a None entry (possible only when one is on the
channel), immediately re-posts exactly one copy, and exits its loop. A
blocked configuration (a running worker but no token) has no successor. -/
def handshakeStep (s : HandshakeState) : Option HandshakeState :=
  if s.running = 0 then none
  else if s.tokens = 0 then none
  else some { tokens := s.tokens - 1 + 1, running := s.running - 1, exited := s.exited + 1 }

/-- Run n handshake steps; none when no step is possible before the n steps
complete. -/
def runHandshake : Nat → HandshakeState → Option HandshakeState
  | 0, s => some s
  | n + 1, s =>
    match handshakeStep s with
    | none => none
    | some t => runHandshake n t

lemma runHandshake_one_token (k : Nat) :
    ∀ e, runHandshake k { tokens := 1, running := k, exited := e } =
      some { tokens := 1, running := 0, exited := e + k } := by
  induction k with
  | zero => intro e; rfl
  | succ n ih =>
    intro e
    have hstep : handshakeStep { tokens := 1, running := n + 1, exited := e } =
        some { tokens := 1, running := n, exited := e + 1 } := by
      unfold handshakeStep
      simp
    rw [runHandshake, hstep]
    show runHandshake n { tokens := 1, running := n, exited := e + 1 } =
      some { tokens := 1, running := 0, exited := e + (n + 1) }
    rw [ih (e + 1)]
    have harith : e + 1 + n = e + (n + 1) := by omega
    rw [harith]

/-- The claim that after all workers exit the request channel contains no
residual shutdown signal is false: with two workers and one posted signal,
both workers exit (running reaches 0) yet one signal is still on the
channel (tokens is 1, not 0) — exactly as the source comment on
request_queue.join() warns (one None entry left). -/
theorem handshake_residual_counterexample :
    (runHandshake 2 { tokens := 1, running := 2, exited := 0 }).map HandshakeState.running
        = some 0
    ∧ (runHandshake 2 { tokens := 1, running := 2, exited := 0 }).map HandshakeState.tokens
        ≠ some 0 := by
  decide

/-- Claim C1 (amended): with k workers in their dequeue loop and exactly one
shutdown signal posted, every worker terminates — each dequeue of the signal
re-posts exactly one copy (the step consumes one token and re-inserts one),
so no worker blocks and after k steps all k workers have exited; exactly one
residual shutdown signal remains on the request channel (zero signals were
net-consumed by the workers). -/
theorem handshake_all_workers_terminate (k : Nat) (hk : 2 ≤ k) :
    runHandshake k { tokens := 1, running := k, exited := 0 } =
      some { tokens := 1, running := 0, exited := k } := by
  have h := runHandshake_one_token k 0
  simpa using h

/-- Witness for handshake_all_workers_terminate with three workers. -/
theorem handshake_all_workers_terminate_witness :
    runHandshake 3 { tokens := 1, running := 3, exited := 0 } =
      some { tokens := 1, running := 0, exited := 3 } :=
  handshake_all_workers_terminate 3 (by decide)

lemma respLe_trans (a b c : TaskResponse) (hab : respLe a b = true) (hbc : respLe b c = true) :
    respLe a c = true := by
  simp only [respLe, decide_eq_true_eq] at *
  omega

lemma respLe_total (a b : TaskResponse) : (respLe a b || respLe b a) = true := by
  simp only [respLe]
  by_cases h : a.request_index ≤ b.request_index
  · simp [h]
  · simp only [Bool.or_eq_true, decide_eq_true_eq]
    omega

lemma sortResponses_perm (l : List TaskResponse) : List.Perm (sortResponses l) l :=
  List.mergeSort_perm l respLe

lemma sorted_sortResponses_bool (l : List TaskResponse) :
    (sortResponses l).Pairwise fun a b => respLe a b = true :=
  List.sorted_mergeSort respLe_trans respLe_total l

lemma sorted_sortResponses_le (l : List TaskResponse) :
    (sortResponses l).Pairwise fun a b => a.request_index ≤ b.request_index :=
  (sorted_sortResponses_bool l).imp fun h => by
    simpa only [respLe, decide_eq_true_eq] using h

lemma pairwise_lt_of_le_of_nodup (l : List TaskResponse)
    (hle : l.Pairwise fun a b => a.request_index ≤ b.request_index)
    (hnd : (l.map TaskResponse.request_index).Nodup) :
    l.Pairwise fun a b => a.request_index < b.request_index := by
  have hne : l.Pairwise fun a b => a.request_index ≠ b.request_index :=
    List.pairwise_map.mp hnd
  exact (hle.and hne).imp fun h => lt_of_le_of_ne h.1 h.2

lemma sortResponses_eq_of_perm_of_sorted (l m : List TaskResponse)
    (hperm : List.Perm l m)
    (hm : m.Pairwise fun a b => a.request_index < b.request_index) :
    sortResponses l = m := by
  have hnd_m : (m.map TaskResponse.request_index).Nodup :=
    List.pairwise_map.mpr (hm.imp fun h => ne_of_lt h)
  have hperm2 : List.Perm (sortResponses l) m := (sortResponses_perm l).trans hperm
  have hnd_s : ((sortResponses l).map TaskResponse.request_index).Nodup :=
    ((hperm2.map TaskResponse.request_index).nodup_iff).mpr hnd_m
  have hs : (sortResponses l).Pairwise fun a b => a.request_index < b.request_index :=
    pairwise_lt_of_le_of_nodup _ (sorted_sortResponses_le l) hnd_s
  letI : IsAntisymm TaskResponse (fun a b => a.request_index < b.request_index) :=
    ⟨fun a b h1 h2 => absurd (lt_trans h1 h2) (lt_irrefl _)⟩
  exact List.eq_of_perm_of_sorted hperm2 hs hm

/-- Claim C3: whatever the arrival order on the response channel, the multi
path emits exactly the response_value of each successful response (failed
responses are excluded by the drain), in strictly ascending request_index
order, and any two arrival orders of the same responses produce the same
output (the successful responses have pairwise distinct request_index,
since each correlates 1:1 with its request). -/
theorem multi_path_reordering (arrivals arrivals2 : List TaskResponse)
    (hperm : List.Perm arrivals arrivals2)
    (hnd : ((drainResponses arrivals).map TaskResponse.request_index).Nodup) :
    List.Perm (Parent.run_multiple arrivals)
      ((drainResponses arrivals).map TaskResponse.response_value)
    ∧ (sortResponses (drainResponses arrivals)).Pairwise
        (fun a b => a.request_index < b.request_index)
    ∧ Parent.run_multiple arrivals = Parent.run_multiple arrivals2 := by
  have hsort_perm := sortResponses_perm (drainResponses arrivals)
  have hnd_s : ((sortResponses (drainResponses arrivals)).map
      TaskResponse.request_index).Nodup :=
    ((hsort_perm.map TaskResponse.request_index).nodup_iff).mpr hnd
  have hlt : (sortResponses (drainResponses arrivals)).Pairwise
      (fun a b => a.request_index < b.request_index) :=
    pairwise_lt_of_le_of_nodup _ (sorted_sortResponses_le _) hnd_s
  refine ⟨hsort_perm.map TaskResponse.response_value, hlt, ?_⟩
  have hdperm : List.Perm (drainResponses arrivals2)
      (sortResponses (drainResponses arrivals)) := by
    have hf : List.Perm (drainResponses arrivals) (drainResponses arrivals2) := by
      unfold drainResponses
      exact hperm.filter fun r => r.is_success
    exact hf.symm.trans hsort_perm.symm
  have heq : sortResponses (drainResponses arrivals2) =
      sortResponses (drainResponses arrivals) :=
    sortResponses_eq_of_perm_of_sorted _ _ hdperm hlt
  unfold Parent.run_multiple
  rw [heq]

/-- Witness for multi_path_reordering on a three-response arrival list and
its reverse: one failed response, two successful ones out of index order. -/
theorem multi_path_reordering_witness :
    Parent.run_multiple
        ([⟨2, 4, true⟩, ⟨3, 1, false⟩, ⟨1, 1, true⟩] : List TaskResponse)
      = Parent.run_multiple
        ([⟨1, 1, true⟩, ⟨3, 1, false⟩, ⟨2, 4, true⟩] : List TaskResponse) :=
  (multi_path_reordering
      ([⟨2, 4, true⟩, ⟨3, 1, false⟩, ⟨1, 1, true⟩] : List TaskResponse)
      ([⟨1, 1, true⟩, ⟨3, 1, false⟩, ⟨2, 4, true⟩] : List TaskResponse)
      (by decide) (by decide)).2.2

/-- Claim C2: for the fixed batch, the multi-worker path produces the same
final ordered result sequence as the synchronous single-worker path, for
every possible arrival order of the workers' responses. -/
theorem single_multi_path_equivalence (arrivals : List TaskResponse)
    (hperm : List.Perm arrivals (canonicalResponses Parent.num_task)) :
    Parent.run_multiple arrivals = Parent.run_single Parent.num_task := by
  have h1 : drainResponses (canonicalResponses Parent.num_task) =
      [⟨2, 1, true⟩, ⟨3, 4, true⟩, ⟨4, 9, true⟩, ⟨5, 16, true⟩, ⟨6, 25, true⟩,
       ⟨7, 36, true⟩, ⟨8, 49, true⟩, ⟨9, 64, true⟩, ⟨10, 81, true⟩, ⟨11, 100, true⟩] := by
    decide
  have hd : List.Perm (drainResponses arrivals)
      (drainResponses (canonicalResponses Parent.num_task)) := by
    unfold drainResponses
    exact hperm.filter fun r => r.is_success
  rw [h1] at hd
  have hsorted : ([⟨2, 1, true⟩, ⟨3, 4, true⟩, ⟨4, 9, true⟩, ⟨5, 16, true⟩, ⟨6, 25, true⟩,
      ⟨7, 36, true⟩, ⟨8, 49, true⟩, ⟨9, 64, true⟩, ⟨10, 81, true⟩, ⟨11, 100, true⟩] :
        List TaskResponse).Pairwise
      (fun a b => a.request_index < b.request_index) := by
    decide
  have heq := sortResponses_eq_of_perm_of_sorted _ _ hd hsorted
  unfold Parent.run_multiple
  rw [heq]
  decide

/-- Witness for single_multi_path_equivalence: the reversed canonical
arrival order still reproduces the single-path output. -/
theorem single_multi_path_equivalence_witness :
    Parent.run_multiple (canonicalResponses Parent.num_task).reverse
      = Parent.run_single Parent.num_task :=
  single_multi_path_equivalence (canonicalResponses Parent.num_task).reverse
    (List.reverse_perm (canonicalResponses Parent.num_task))
